import Mathlib

/-!
Formal model of the F-Agent Decision and Valuation Engine
(`src/f-agent/src/decision/engine.py`).

Monetary amounts and other numeric values are modelled as exact rationals.
The Python built-in `round` performs round-half-to-even (bankers rounding);
it is modelled here by `pyRound` on exact rationals.
-/

namespace FAgent

/-- Round-half-to-even of a rational to an integer, as the Python built-in
`round` does on the value it is given. -/
def pyRoundInt (x : ℚ) : ℤ :=
  let f := ⌊x⌋
  let frac := x - f
  if frac < 1 / 2 then f
  else if 1 / 2 < frac then f + 1
  else if f % 2 = 0 then f else f + 1

/-- Python `round(x, n)`: round-half-to-even at `n` decimal places. -/
def pyRound (x : ℚ) (n : ℕ) : ℚ := (pyRoundInt (x * 10 ^ n) : ℚ) / 10 ^ n

/-- Decimal rounding with ties going up (standard half-up rounding), as the
spec describes the rounding of monetary outputs. Used only on the spec side
of the fee-model comparison. -/
def roundHalfUp (x : ℚ) (n : ℕ) : ℚ := (⌊x * 10 ^ n + 1 / 2⌋ : ℚ) / 10 ^ n

/-- `class Decision(Enum)` from the source. -/
inductive Decision where
  | BUY
  | SKIP
  | WATCH
deriving DecidableEq, Repr

/-- `class SkipReason(Enum)` from the source. -/
inductive SkipReason where
  | RESTRICTED
  | LOW_ROI
  | HIGH_BSR
  | LOW_SALES
  | TOO_MUCH_COMPETITION
  | PUBLISHER_WATCHLIST
  | PRICE_DECLINING
  | APPROVAL_UNLIKELY
  | UNKNOWN_ELIGIBILITY
deriving DecidableEq, Repr

/-- The human-readable value carried by each `SkipReason` enum member. -/
def SkipReason.value : SkipReason → String
  | .RESTRICTED => "Product is restricted"
  | .LOW_ROI => "ROI below threshold"
  | .HIGH_BSR => "BSR too high"
  | .LOW_SALES => "Insufficient sales velocity"
  | .TOO_MUCH_COMPETITION => "Too many FBA sellers"
  | .PUBLISHER_WATCHLIST => "Publisher on watchlist"
  | .PRICE_DECLINING => "Price trend declining"
  | .APPROVAL_UNLIKELY => "Approval success rate too low"
  | .UNKNOWN_ELIGIBILITY => "Could not determine eligibility"

/-! ## FeeCalculator -/

def REFERRAL_FEE_PERCENT : ℚ := 0.15

def MINIMUM_REFERRAL_FEE : ℚ := 0.30

/-- `FBA_FEES['small_standard']`: up to 16 oz. -/
def FBA_FEE_small_standard : ℚ := 3.22

/-- `FBA_FEES['large_standard']`: 1 to 2 lb. -/
def FBA_FEE_large_standard : ℚ := 4.95

/-- `FBA_FEES['large_standard_2']`: 2 to 3 lb. -/
def FBA_FEE_large_standard_2 : ℚ := 5.95

def INBOUND_PLACEMENT_FEE : ℚ := 0.27

/-- The dict returned by `FeeCalculator.calculate_fees`. -/
structure Fees where
  referral_fee : ℚ
  fba_fee : ℚ
  inbound_fee : ℚ
  total_fees : ℚ
deriving DecidableEq, Repr

/-- `FeeCalculator.calculate_fees`.  The Python default for `weight_oz`
is 12; every caller in the engine uses the default, and the model passes
it explicitly. -/
def calculate_fees (sell_price : ℚ) (weight_oz : ℚ) : Fees :=
  let referral_fee := max (sell_price * REFERRAL_FEE_PERCENT) MINIMUM_REFERRAL_FEE
  let fba_fee :=
    if weight_oz ≤ 16 then FBA_FEE_small_standard
    else if weight_oz ≤ 32 then FBA_FEE_large_standard
    else FBA_FEE_large_standard_2
  let inbound_fee := INBOUND_PLACEMENT_FEE
  let total_fees := referral_fee + fba_fee + inbound_fee
  { referral_fee := pyRound referral_fee 2
    fba_fee := pyRound fba_fee 2
    inbound_fee := pyRound inbound_fee 2
    total_fees := pyRound total_fees 2 }

/-- The dict returned by `FeeCalculator.calculate_profit`. -/
structure ProfitCalc where
  sell_price : ℚ
  buy_price : ℚ
  fees : Fees
  gross_profit : ℚ
  roi_percent : ℚ
deriving DecidableEq, Repr

/-- `FeeCalculator.calculate_profit`. -/
def calculate_profit (sell_price buy_price weight_oz : ℚ) : ProfitCalc :=
  let fees := calculate_fees sell_price weight_oz
  let gross_profit := sell_price - fees.total_fees - buy_price
  let roi := if 0 < buy_price then gross_profit / buy_price * 100 else 0
  { sell_price := sell_price
    buy_price := buy_price
    fees := fees
    gross_profit := pyRound gross_profit 2
    roi_percent := pyRound roi 1 }

/-- Spec-side fee calculator, following the claim wording of C7: identical
formula, but monetary outputs rounded with standard half-up rounding. -/
def calculate_fees_half_up (sell_price : ℚ) (weight_oz : ℚ) : Fees :=
  let referral_fee := max (sell_price * REFERRAL_FEE_PERCENT) MINIMUM_REFERRAL_FEE
  let fba_fee :=
    if weight_oz ≤ 16 then FBA_FEE_small_standard
    else if weight_oz ≤ 32 then FBA_FEE_large_standard
    else FBA_FEE_large_standard_2
  let inbound_fee := INBOUND_PLACEMENT_FEE
  let total_fees := referral_fee + fba_fee + inbound_fee
  { referral_fee := roundHalfUp referral_fee 2
    fba_fee := roundHalfUp fba_fee 2
    inbound_fee := roundHalfUp inbound_fee 2
    total_fees := roundHalfUp total_fees 2 }

/-! ## DecisionEngine data model -/

/-- `ProductData`: all data needed for a decision.  Optional fields are
`Option`; numeric fields are exact rationals. -/
structure ProductData where
  asin : String
  eligibility_status : String
  bsr : Option ℤ := none
  bsr_90_day_avg : Option ℤ := none
  monthly_sales_estimate : Option ℚ := none
  current_price : Option ℚ := none
  price_90_day_avg : Option ℚ := none
  price_trend : Option String := none
  fba_seller_count : Option ℤ := none
  source_price : Option ℚ := none
  source_name : Option String := none
  title : Option String := none
  publisher : Option String := none
deriving DecidableEq, Repr

/-- The threshold configuration fields the engine actually reads
(`DecisionEngine._load_config`). -/
structure Config where
  allow_need_approval : Bool
  max_rank : ℤ
  min_monthly_sales : ℚ
  minimum_percent : ℚ
  preferred_percent : ℚ
  max_fba_sellers : ℤ
  allow_declining_trend : Bool
deriving DecidableEq, Repr

/-- The default config returned by `DecisionEngine._load_config` when no
config file exists (the repository ships none). -/
def defaultConfig : Config :=
  { allow_need_approval := false
    max_rank := 2000000
    min_monthly_sales := 1
    minimum_percent := 30
    preferred_percent := 50
    max_fba_sellers := 10
    allow_declining_trend := false }

/-- `DecisionEngine._load_publisher_watchlist`. -/
def publisher_watchlist : List String := ["test prep company", "workbook publisher"]

/-! ## Criterion checks.  Each mirrors the corresponding private method and
returns the same `(ok, reason)` pair. -/

/-- `DecisionEngine._check_eligibility`.  Note that any status string not in
the recognised set falls through to `(True, None)`. -/
def _check_eligibility (cfg : Config) (product : ProductData) : Bool × Option SkipReason :=
  let status := product.eligibility_status
  if status = "RESTRICTED" then (false, some .RESTRICTED)
  else if status = "UNKNOWN" ∨ status = "NOT_CHECKED" then (false, some .UNKNOWN_ELIGIBILITY)
  else if status = "NEED_APPROVAL" ∧ ¬cfg.allow_need_approval then (false, some .APPROVAL_UNLIKELY)
  else (true, none)

/-- `DecisionEngine._check_bsr`. -/
def _check_bsr (cfg : Config) (product : ProductData) : Bool × Option SkipReason :=
  match product.bsr with
  | none => (true, none)
  | some bsr => if cfg.max_rank < bsr then (false, some .HIGH_BSR) else (true, none)

/-- `DecisionEngine._check_sales`. -/
def _check_sales (cfg : Config) (product : ProductData) : Bool × Option SkipReason :=
  match product.monthly_sales_estimate with
  | none => (true, none)
  | some v => if v < cfg.min_monthly_sales then (false, some .LOW_SALES) else (true, none)

/-- `DecisionEngine._check_competition`. -/
def _check_competition (cfg : Config) (product : ProductData) : Bool × Option SkipReason :=
  match product.fba_seller_count with
  | none => (true, none)
  | some c => if cfg.max_fba_sellers < c then (false, some .TOO_MUCH_COMPETITION) else (true, none)

/-- `DecisionEngine._check_price_trend`. -/
def _check_price_trend (cfg : Config) (product : ProductData) : Bool × Option SkipReason :=
  match product.price_trend with
  | none => (true, none)
  | some t =>
    if t = "declining" ∧ ¬cfg.allow_declining_trend then (false, some .PRICE_DECLINING)
    else (true, none)

/-- `DecisionEngine._check_publisher`. -/
def _check_publisher (wl : List String) (product : ProductData) : Bool × Option SkipReason :=
  match product.publisher with
  | none => (true, none)
  | some p => if p.toLower ∈ wl then (false, some .PUBLISHER_WATCHLIST) else (true, none)

/-- The dict built by `DecisionEngine._calculate_roi`. -/
structure RoiResult where
  roi : Option ℚ
  profit : Option ℚ
  max_buy_price : Option ℚ
  skip_reason : Option SkipReason
deriving DecidableEq, Repr

/-- `DecisionEngine._calculate_roi`.  Uses the default weight of 12 oz, as
the Python call sites do. -/
def _calculate_roi (cfg : Config) (product : ProductData) : RoiResult :=
  match product.current_price, product.source_price with
  | some current_price, some source_price =>
    let profit_calc := calculate_profit current_price source_price 12
    let skip_reason :=
      if profit_calc.roi_percent < cfg.minimum_percent then some SkipReason.LOW_ROI else none
    let target_roi := cfg.preferred_percent / 100
    let fees := calculate_fees current_price 12
    let max_buy := (current_price - fees.total_fees) / (1 + target_roi)
    { roi := some profit_calc.roi_percent
      profit := some profit_calc.gross_profit
      max_buy_price := some (pyRound max_buy 2)
      skip_reason := skip_reason }
  | _, _ => { roi := none, profit := none, max_buy_price := none, skip_reason := none }

/-- The reasons a check contributes to `skip_reasons` in `analyze`: nothing
on a pass, the reported reason on a failure. -/
def failList (c : Bool × Option SkipReason) : List SkipReason :=
  if c.1 then [] else c.2.toList

/-- The `skip_reasons` list accumulated by `DecisionEngine.analyze`, in the
order the checks run: eligibility, BSR, sales, competition, price trend,
publisher, ROI. -/
def skipReasonsOf (cfg : Config) (wl : List String) (product : ProductData) : List SkipReason :=
  failList (_check_eligibility cfg product)
    ++ failList (_check_bsr cfg product)
    ++ failList (_check_sales cfg product)
    ++ failList (_check_competition cfg product)
    ++ failList (_check_price_trend cfg product)
    ++ failList (_check_publisher wl product)
    ++ (_calculate_roi cfg product).skip_reason.toList

/-- The confidence accumulated by `DecisionEngine.analyze`: starts at 1.0,
multiplied by 0.8 when the sales check fails, 0.9 when the competition check
fails, and 0.85 when the price-trend check fails, in that order. -/
def confidenceOf (cfg : Config) (product : ProductData) : ℚ :=
  1.0 * (if (_check_sales cfg product).1 then 1 else 0.8)
    * (if (_check_competition cfg product).1 then 1 else 0.9)
    * (if (_check_price_trend cfg product).1 then 1 else 0.85)

/-- The hard-skip set from `DecisionEngine.analyze`. -/
def hard_skips : List SkipReason := [.RESTRICTED, .UNKNOWN_ELIGIBILITY, .PUBLISHER_WATCHLIST]

/-- The decision block of `DecisionEngine.analyze`, applied to the
accumulated `skip_reasons` list. -/
def decisionOf (skip_reasons : List SkipReason) : Decision :=
  if skip_reasons ≠ [] then
    if ∃ r ∈ skip_reasons, r ∈ hard_skips then Decision.SKIP
    else if skip_reasons.length = 1 ∧
        skip_reasons.headD SkipReason.RESTRICTED ∈ [SkipReason.LOW_SALES, SkipReason.PRICE_DECLINING]
      then Decision.WATCH
    else Decision.SKIP
  else Decision.BUY

/-- `DecisionEngine._format_reason`. -/
def _format_reason (decision : Decision) (skip_reasons : List SkipReason) : String :=
  match decision with
  | .BUY => "All criteria passed - recommend purchase"
  | .WATCH => "Monitor for improvement: " ++ String.intercalate ", " (skip_reasons.map SkipReason.value)
  | .SKIP => "Skip: " ++ String.intercalate ", " (skip_reasons.map SkipReason.value)

/-- `DecisionResult` (the evaluation timestamp is omitted: it is wall-clock
metadata with no bearing on any claim). -/
structure DecisionResult where
  asin : String
  decision : Decision
  reason : String
  skip_reasons : Option (List SkipReason)
  estimated_roi : Option ℚ
  estimated_profit : Option ℚ
  confidence : Option ℚ
  max_buy_price : Option ℚ
  recommended_sell_price : Option ℚ
deriving DecidableEq, Repr

/-- `DecisionEngine.analyze`. -/
def analyze (cfg : Config) (wl : List String) (product : ProductData) : DecisionResult :=
  let skip_reasons := skipReasonsOf cfg wl product
  let confidence := confidenceOf cfg product
  let roi_result := _calculate_roi cfg product
  let decision := decisionOf skip_reasons
  { asin := product.asin
    decision := decision
    reason := _format_reason decision skip_reasons
    skip_reasons := if skip_reasons ≠ [] then some skip_reasons else none
    estimated_roi := roi_result.roi
    estimated_profit := roi_result.profit
    confidence := some confidence
    max_buy_price := roi_result.max_buy_price
    recommended_sell_price := product.current_price }

/-! ## Spec-side definitions used by the refinement claims -/

/-- The verdict policy as the spec states it: zero failures give Acquire;
any hard-skip failure gives Reject; exactly one failure that is LowSales or
PriceDeclining (with no hard-skip present) gives Defer; any other
combination of one or more failures gives Reject. -/
def verdictPolicy (failures : List SkipReason) : Decision :=
  if failures = [] then Decision.BUY
  else if ∃ r ∈ failures, r ∈ hard_skips then Decision.SKIP
  else if failures.length = 1 ∧
      ∀ r ∈ failures, r = SkipReason.LOW_SALES ∨ r = SkipReason.PRICE_DECLINING
    then Decision.WATCH
  else Decision.SKIP

/-- Number of failing soft checks (sales velocity, competition, price
trend): the checks that carry a confidence penalty. -/
def softFailCount (cfg : Config) (product : ProductData) : ℕ :=
  (if (_check_sales cfg product).1 then 0 else 1)
    + (if (_check_competition cfg product).1 then 0 else 1)
    + (if (_check_price_trend cfg product).1 then 0 else 1)

/-! ## Evaluation lemmas for concrete inputs -/

lemma fees_2499 : calculate_fees (2499 / 100) 12 =
    { referral_fee := 15 / 4, fba_fee := 161 / 50, inbound_fee := 27 / 100,
      total_fees := 181 / 25 } := by
  unfold calculate_fees
  rw [max_eq_left (by norm_num [REFERRAL_FEE_PERCENT, MINIMUM_REFERRAL_FEE])]
  norm_num [REFERRAL_FEE_PERCENT, FBA_FEE_small_standard, FBA_FEE_large_standard,
    FBA_FEE_large_standard_2, INBOUND_PLACEMENT_FEE, pyRound, pyRoundInt]

lemma fees_20 : calculate_fees 20 12 =
    { referral_fee := 3, fba_fee := 161 / 50, inbound_fee := 27 / 100,
      total_fees := 649 / 100 } := by
  unfold calculate_fees
  rw [max_eq_left (by norm_num [REFERRAL_FEE_PERCENT, MINIMUM_REFERRAL_FEE])]
  norm_num [REFERRAL_FEE_PERCENT, FBA_FEE_small_standard, FBA_FEE_large_standard,
    FBA_FEE_large_standard_2, INBOUND_PLACEMENT_FEE, pyRound, pyRoundInt]

lemma fees_230 : calculate_fees (23 / 10) 12 =
    { referral_fee := 17 / 50, fba_fee := 161 / 50, inbound_fee := 27 / 100,
      total_fees := 96 / 25 } := by
  unfold calculate_fees
  rw [max_eq_left (by norm_num [REFERRAL_FEE_PERCENT, MINIMUM_REFERRAL_FEE])]
  norm_num [REFERRAL_FEE_PERCENT, FBA_FEE_small_standard, FBA_FEE_large_standard,
    FBA_FEE_large_standard_2, INBOUND_PLACEMENT_FEE, pyRound, pyRoundInt]

lemma fees_half_up_230 : calculate_fees_half_up (23 / 10) 12 =
    { referral_fee := 7 / 20, fba_fee := 161 / 50, inbound_fee := 27 / 100,
      total_fees := 96 / 25 } := by
  unfold calculate_fees_half_up
  rw [max_eq_left (by norm_num [REFERRAL_FEE_PERCENT, MINIMUM_REFERRAL_FEE])]
  norm_num [REFERRAL_FEE_PERCENT, FBA_FEE_small_standard, FBA_FEE_large_standard,
    FBA_FEE_large_standard_2, INBOUND_PLACEMENT_FEE, roundHalfUp]

/-! ## Claim theorems -/

/-- C6: for every sale price and acquisition cost, the ROI computation in
`calculate_profit` returns (gross profit / cost) × 100 (rounded at output to
one decimal place) when the cost is positive, and exactly 0 when the cost
is 0.  The guard on the division means no division by zero is ever
performed; as a total function on exact rationals it can neither overflow
nor raise. -/
theorem calculate_profit_roi_totality (sell_price buy_price weight_oz : ℚ) :
    (calculate_profit sell_price buy_price weight_oz).roi_percent =
      pyRound (if 0 < buy_price then
          (sell_price - (calculate_fees sell_price weight_oz).total_fees - buy_price)
            / buy_price * 100
        else 0) 1
  ∧ (calculate_profit sell_price 0 weight_oz).roi_percent = 0 := by
  constructor
  · rfl
  · show pyRound (if (0 : ℚ) < 0 then
        (sell_price - (calculate_fees sell_price weight_oz).total_fees - 0) / 0 * 100
      else 0) 1 = 0
    rw [if_neg (lt_irrefl 0)]
    norm_num [pyRound, pyRoundInt]

/-- C7 counterexample: at sale price 2.30, the full-precision referral fee
is 2.30 × 0.15 = 0.345; the code (Python `round`, half-to-even) reports
0.34, while standard half-up rounding as claimed would report 0.35. -/
theorem calculate_fees_half_up_counterexample :
    (calculate_fees (23 / 10) 12).referral_fee = 34 / 100
  ∧ (calculate_fees_half_up (23 / 10) 12).referral_fee = 35 / 100
  ∧ calculate_fees (23 / 10) 12 ≠ calculate_fees_half_up (23 / 10) 12 := by
  rw [fees_230, fees_half_up_230]
  refine ⟨by norm_num, by norm_num, ?_⟩
  intro h
  have := congrArg Fees.referral_fee h
  norm_num at this

/-- C7 (amended): the fee model is referral = max(price × 0.15, 0.30),
a three-tier weight lookup for the fulfillment fee, plus a flat 0.27
placement fee; the total is the full-precision sum of the three, and every
monetary output is rounded to 2 decimal places at the point of output —
but with round-half-to-even (the Python `round` builtin), not half-up. -/
theorem calculate_fees_rounding_formula (sell_price weight_oz : ℚ) :
    calculate_fees sell_price weight_oz =
      { referral_fee := pyRound (max (sell_price * (15 / 100)) (30 / 100)) 2
        fba_fee := pyRound (if weight_oz ≤ 16 then 3.22
          else if weight_oz ≤ 32 then 4.95 else 5.95) 2
        inbound_fee := pyRound 0.27 2
        total_fees := pyRound (max (sell_price * (15 / 100)) (30 / 100)
            + (if weight_oz ≤ 16 then 3.22 else if weight_oz ≤ 32 then 4.95 else 5.95)
            + 0.27) 2 } := by
  unfold calculate_fees
  norm_num [REFERRAL_FEE_PERCENT, MINIMUM_REFERRAL_FEE, FBA_FEE_small_standard,
    FBA_FEE_large_standard, FBA_FEE_large_standard_2, INBOUND_PLACEMENT_FEE]

/-- Concrete product for C10: sale price 20.00, acquisition cost 10.396. -/
def p10 : ProductData :=
  { asin := "B10", eligibility_status := "GOOD",
    current_price := some 20, source_price := some (10396 / 1000) }

/-- C10: the minimum-ROI check compares the one-decimal-rounded ROI to the
floor.  At sale price 20.00 and cost 10.396 the exact ROI is about 29.954,
strictly below the default floor 30 by less than 0.05, yet no LowROI skip
reason is produced and the reported estimated ROI is the rounded 30.0. -/
theorem roi_floor_uses_rounded_roi :
    (20 - (calculate_fees 20 12).total_fees - 10396 / 1000) / (10396 / 1000) * 100 < 30
  ∧ 30 - (20 - (calculate_fees 20 12).total_fees - 10396 / 1000) / (10396 / 1000) * 100 < 5 / 100
  ∧ (calculate_profit 20 (10396 / 1000) 12).roi_percent = 30
  ∧ (_calculate_roi defaultConfig p10).skip_reason = none
  ∧ (analyze defaultConfig publisher_watchlist p10).estimated_roi = some 30 := by
  have hroi : (calculate_profit 20 (10396 / 1000) 12).roi_percent = 30 := by
    show pyRound (if (0 : ℚ) < 10396 / 1000 then
        (20 - (calculate_fees 20 12).total_fees - 10396 / 1000) / (10396 / 1000) * 100
      else 0) 1 = 30
    rw [fees_20, if_pos (by norm_num)]
    norm_num [pyRound, pyRoundInt]
  have hskip : (_calculate_roi defaultConfig p10).skip_reason = none := by
    show (if (calculate_profit 20 (10396 / 1000) 12).roi_percent
        < defaultConfig.minimum_percent then some SkipReason.LOW_ROI else none) = none
    rw [hroi]
    norm_num [defaultConfig]
  refine ⟨by rw [fees_20]; norm_num, by rw [fees_20]; norm_num, hroi, hskip, ?_⟩
  show (_calculate_roi defaultConfig p10).roi = some 30
  show some (calculate_profit 20 (10396 / 1000) 12).roi_percent = some 30
  rw [hroi]

lemma decisionOf_eq_verdictPolicy (rs : List SkipReason) : decisionOf rs = verdictPolicy rs := by
  unfold decisionOf verdictPolicy
  rcases rs with _ | ⟨a, tl⟩
  · simp
  · have hne : (a :: tl) ≠ [] := by simp
    rw [if_pos hne, if_neg hne]
    by_cases hh : ∃ r ∈ (a :: tl), r ∈ hard_skips
    · rw [if_pos hh, if_pos hh]
    · rw [if_neg hh, if_neg hh]
      have hiff : ((a :: tl).length = 1 ∧ (a :: tl).headD SkipReason.RESTRICTED
            ∈ [SkipReason.LOW_SALES, SkipReason.PRICE_DECLINING])
          ↔ ((a :: tl).length = 1 ∧
            ∀ r ∈ (a :: tl), r = SkipReason.LOW_SALES ∨ r = SkipReason.PRICE_DECLINING) := by
        constructor
        · rintro ⟨h1, h2⟩
          have htl : tl = [] := by simpa using h1
          subst htl
          simp_all
        · rintro ⟨h1, h2⟩
          have htl : tl = [] := by simpa using h1
          subst htl
          simp_all
      by_cases hw : (a :: tl).length = 1 ∧ (a :: tl).headD SkipReason.RESTRICTED
          ∈ [SkipReason.LOW_SALES, SkipReason.PRICE_DECLINING]
      · rw [if_pos hw, if_pos (hiff.mp hw)]
      · rw [if_neg hw, if_neg (fun h => hw (hiff.mpr h))]

/-- C1: for every product signal (and any configuration and watchlist), the
verdict returned by `analyze` is exactly the one fixed by the spec policy
on the accumulated list of failed checks: no failures gives BUY; any
failure among Restricted, UnknownEligibility or PublisherWatchlist gives
SKIP regardless of the rest; exactly one failure that is LowSales or
PriceDeclining gives WATCH; and any other combination of one or more
failures gives SKIP. -/
theorem analyze_verdict_policy (cfg : Config) (wl : List String) (product : ProductData) :
    (analyze cfg wl product).decision = verdictPolicy (skipReasonsOf cfg wl product) := by
  show decisionOf (skipReasonsOf cfg wl product) = _
  exact decisionOf_eq_verdictPolicy _

/-- Concrete product for C2: an eligibility status outside the recognised
enumeration. -/
def pMalformed : ProductData := { asin := "B02", eligibility_status := "PENDING" }

/-- C2 (code behavior at the failing input): an eligibility status outside
the closed enumeration is NOT rejected with a validation error; the
eligibility check silently returns a pass, and `analyze` returns a BUY
verdict with no skip reasons.  This contradicts the spec, which requires a
fail-fast validation error for malformed statuses. -/
theorem analyze_malformed_eligibility_passes :
    pMalformed.eligibility_status ∉ ["GOOD", "NEED_APPROVAL", "RESTRICTED", "UNKNOWN", "NOT_CHECKED"]
  ∧ _check_eligibility defaultConfig pMalformed = (true, none)
  ∧ (analyze defaultConfig publisher_watchlist pMalformed).decision = Decision.BUY
  ∧ (analyze defaultConfig publisher_watchlist pMalformed).skip_reasons = none :=
  ⟨by decide, rfl, rfl, rfl⟩

/-- C8: a product signal with eligibility GOOD and every optional field
unset gets verdict BUY with no skip reasons, for every configuration and
watchlist: absence of optional data alone never causes a failure. -/
theorem analyze_all_optional_unset_buy (cfg : Config) (wl : List String) (a : String) :
    (analyze cfg wl
      { asin := a, eligibility_status := "GOOD", bsr := none, bsr_90_day_avg := none,
        monthly_sales_estimate := none, current_price := none, price_90_day_avg := none,
        price_trend := none, fba_seller_count := none, source_price := none,
        source_name := none, title := none, publisher := none }).decision = Decision.BUY
  ∧ (analyze cfg wl
      { asin := a, eligibility_status := "GOOD", bsr := none, bsr_90_day_avg := none,
        monthly_sales_estimate := none, current_price := none, price_90_day_avg := none,
        price_trend := none, fba_seller_count := none, source_price := none,
        source_name := none, title := none, publisher := none }).skip_reasons = none :=
  ⟨rfl, rfl⟩

/-! ## Shapes of the check results -/

lemma check_eligibility_cases (cfg : Config) (product : ProductData) :
    _check_eligibility cfg product = (true, none)
  ∨ _check_eligibility cfg product = (false, some SkipReason.RESTRICTED)
  ∨ _check_eligibility cfg product = (false, some SkipReason.UNKNOWN_ELIGIBILITY)
  ∨ _check_eligibility cfg product = (false, some SkipReason.APPROVAL_UNLIKELY) := by
  unfold _check_eligibility
  dsimp only
  split_ifs <;> simp

lemma check_bsr_cases (cfg : Config) (product : ProductData) :
    _check_bsr cfg product = (true, none)
  ∨ _check_bsr cfg product = (false, some SkipReason.HIGH_BSR) := by
  unfold _check_bsr
  cases product.bsr with
  | none => left; rfl
  | some v =>
    dsimp only
    split_ifs <;> simp

lemma check_sales_cases (cfg : Config) (product : ProductData) :
    _check_sales cfg product = (true, none)
  ∨ _check_sales cfg product = (false, some SkipReason.LOW_SALES) := by
  unfold _check_sales
  cases product.monthly_sales_estimate with
  | none => left; rfl
  | some v =>
    dsimp only
    split_ifs <;> simp

lemma check_competition_cases (cfg : Config) (product : ProductData) :
    _check_competition cfg product = (true, none)
  ∨ _check_competition cfg product = (false, some SkipReason.TOO_MUCH_COMPETITION) := by
  unfold _check_competition
  cases product.fba_seller_count with
  | none => left; rfl
  | some v =>
    dsimp only
    split_ifs <;> simp

lemma check_price_trend_cases (cfg : Config) (product : ProductData) :
    _check_price_trend cfg product = (true, none)
  ∨ _check_price_trend cfg product = (false, some SkipReason.PRICE_DECLINING) := by
  unfold _check_price_trend
  cases product.price_trend with
  | none => left; rfl
  | some t =>
    dsimp only
    split_ifs <;> simp

lemma check_publisher_cases (wl : List String) (product : ProductData) :
    _check_publisher wl product = (true, none)
  ∨ _check_publisher wl product = (false, some SkipReason.PUBLISHER_WATCHLIST) := by
  unfold _check_publisher
  cases product.publisher with
  | none => left; rfl
  | some p =>
    dsimp only
    split_ifs <;> simp

lemma confidence_eq_one_of_no_failures (cfg : Config) (wl : List String) (product : ProductData)
    (h : skipReasonsOf cfg wl product = []) : confidenceOf cfg product = 1 := by
  unfold skipReasonsOf at h
  rw [List.append_eq_nil, List.append_eq_nil, List.append_eq_nil, List.append_eq_nil,
    List.append_eq_nil, List.append_eq_nil] at h
  obtain ⟨⟨⟨⟨⟨⟨h1, h2⟩, h3⟩, h4⟩, h5⟩, h6⟩, h7⟩ := h
  have hs : (_check_sales cfg product).1 = true := by
    rcases check_sales_cases cfg product with h' | h'
    · rw [h']
    · rw [h'] at h3; simp [failList] at h3
  have hc : (_check_competition cfg product).1 = true := by
    rcases check_competition_cases cfg product with h' | h'
    · rw [h']
    · rw [h'] at h4; simp [failList] at h4
  have ht : (_check_price_trend cfg product).1 = true := by
    rcases check_price_trend_cases cfg product with h' | h'
    · rw [h']
    · rw [h'] at h5; simp [failList] at h5
  unfold confidenceOf
  rw [hs, hc, ht]
  norm_num

/-- C3: the confidence attached by `analyze` is exactly 1.0 times 0.8 when
the sales-velocity check fails, times 0.9 when the competition check fails,
times 0.85 when the price-trend check fails, and nothing else; it never
exceeds 1; with exactly one failing soft check it is strictly below 1; and
with no failed checks at all it is exactly 1 (so a one-soft-failure signal
has strictly lower confidence than an otherwise identical clean one). -/
theorem analyze_confidence_penalties (cfg : Config) (wl : List String) (product : ProductData) :
    (analyze cfg wl product).confidence = some
      ((if (_check_sales cfg product).1 then 1 else 0.8)
        * (if (_check_competition cfg product).1 then 1 else 0.9)
        * (if (_check_price_trend cfg product).1 then 1 else 0.85))
  ∧ confidenceOf cfg product ≤ 1
  ∧ (softFailCount cfg product = 1 → confidenceOf cfg product < 1)
  ∧ (skipReasonsOf cfg wl product = [] → confidenceOf cfg product = 1) := by
  refine ⟨?_, ?_, ?_, confidence_eq_one_of_no_failures cfg wl product⟩
  · show some (confidenceOf cfg product) = _
    unfold confidenceOf
    norm_num
  · unfold confidenceOf
    split_ifs <;> norm_num
  · intro h1
    unfold softFailCount at h1
    unfold confidenceOf
    split_ifs at h1 ⊢ <;> norm_num at h1 ⊢

/-- Concrete product for the C3 witness: exactly one soft failure (sales
velocity 0 is below the default floor of 1). -/
def pOneSoft : ProductData :=
  { asin := "B03", eligibility_status := "GOOD", monthly_sales_estimate := some 0 }

/-- C3 witness: one soft failure on a concrete product drives confidence
strictly below 1. -/
theorem analyze_confidence_penalties_witness :
    softFailCount defaultConfig pOneSoft = 1
  ∧ confidenceOf defaultConfig pOneSoft < 1 := by
  have h1 : softFailCount defaultConfig pOneSoft = 1 := by
    have hs : _check_sales defaultConfig pOneSoft = (false, some SkipReason.LOW_SALES) := by
      show (if (0 : ℚ) < defaultConfig.min_monthly_sales
          then ((false : Bool), some SkipReason.LOW_SALES)
          else ((true : Bool), (none : Option SkipReason)))
        = ((false : Bool), some SkipReason.LOW_SALES)
      rw [if_pos (by norm_num [defaultConfig])]
    unfold softFailCount
    rw [hs]
    rfl
  exact ⟨h1, (analyze_confidence_penalties defaultConfig publisher_watchlist pOneSoft).2.2.1 h1⟩

/-- C9: whenever `analyze` returns a BUY verdict, the skip-reason field is
null and the confidence is exactly 1.0 — BUY only arises with no failed
checks, so no penalty was applied. -/
theorem analyze_buy_full_confidence (cfg : Config) (wl : List String) (product : ProductData)
    (h : (analyze cfg wl product).decision = Decision.BUY) :
    (analyze cfg wl product).confidence = some 1
  ∧ (analyze cfg wl product).skip_reasons = none := by
  have hnil : skipReasonsOf cfg wl product = [] := by
    by_contra hne
    have hd : decisionOf (skipReasonsOf cfg wl product) = Decision.BUY := h
    unfold decisionOf at hd
    rw [if_pos hne] at hd
    split_ifs at hd
  refine ⟨?_, ?_⟩
  · show some (confidenceOf cfg product) = some 1
    rw [confidence_eq_one_of_no_failures cfg wl product hnil]
  · show (if skipReasonsOf cfg wl product ≠ [] then some (skipReasonsOf cfg wl product)
        else none) = none
    rw [if_neg (by simp [hnil])]

/-- Concrete product for the C9 witness. -/
def pBuy9 : ProductData := { asin := "B09", eligibility_status := "GOOD" }

/-- C9 witness: a concrete BUY result with confidence exactly 1. -/
theorem analyze_buy_full_confidence_witness :
    (analyze defaultConfig publisher_watchlist pBuy9).decision = Decision.BUY
  ∧ (analyze defaultConfig publisher_watchlist pBuy9).confidence = some 1 :=
  ⟨rfl, (analyze_buy_full_confidence defaultConfig publisher_watchlist pBuy9 rfl).1⟩

/-- C4: whenever both prices are present, the reported maximum buy price is
(sale price − fees at the sale price) / (1 + target ROI fraction), with the
target (preferred) ROI from config, fees computed once at the sale price,
and the documented 2-decimal output rounding — independent of the outcome
of the minimum-ROI check or of any other check. -/
theorem analyze_max_buy_price_formula (cfg : Config) (wl : List String) (product : ProductData)
    (cp sp : ℚ) (hcp : product.current_price = some cp) (hsp : product.source_price = some sp) :
    (analyze cfg wl product).max_buy_price =
      some (pyRound ((cp - (calculate_fees cp 12).total_fees)
        / (1 + cfg.preferred_percent / 100)) 2) := by
  show (_calculate_roi cfg product).max_buy_price = _
  unfold _calculate_roi
  rw [hcp, hsp]

/-- Concrete product for the C4 witness: sale price 24.99, cost 10.99. -/
def pPrices4 : ProductData :=
  { asin := "B04", eligibility_status := "GOOD",
    current_price := some (2499 / 100), source_price := some (1099 / 100) }

/-- C4 witness: at sale price 24.99 with the default 50 percent target ROI,
the maximum buy price is (24.99 − 7.24) / 1.5 rounded to 11.83. -/
theorem analyze_max_buy_price_formula_witness :
    (analyze defaultConfig publisher_watchlist pPrices4).max_buy_price = some (1183 / 100) := by
  rw [analyze_max_buy_price_formula defaultConfig publisher_watchlist pPrices4
    (2499 / 100) (1099 / 100) rfl rfl, fees_2499]
  norm_num [defaultConfig, pyRound, pyRoundInt]

lemma low_roi_mem_skipReasons (cfg : Config) (wl : List String) (product : ProductData)
    (h : SkipReason.LOW_ROI ∈ skipReasonsOf cfg wl product) :
    (_calculate_roi cfg product).skip_reason = some SkipReason.LOW_ROI := by
  unfold skipReasonsOf at h
  simp only [List.mem_append] at h
  rcases h with ((((((h | h) | h) | h) | h) | h) | h)
  · rcases check_eligibility_cases cfg product with h' | h' | h' | h' <;>
      rw [h'] at h <;> simp [failList] at h
  · rcases check_bsr_cases cfg product with h' | h' <;> rw [h'] at h <;> simp [failList] at h
  · rcases check_sales_cases cfg product with h' | h' <;> rw [h'] at h <;> simp [failList] at h
  · rcases check_competition_cases cfg product with h' | h' <;>
      rw [h'] at h <;> simp [failList] at h
  · rcases check_price_trend_cases cfg product with h' | h' <;>
      rw [h'] at h <;> simp [failList] at h
  · rcases check_publisher_cases wl product with h' | h' <;>
      rw [h'] at h <;> simp [failList] at h
  · rcases hx : (_calculate_roi cfg product).skip_reason with _ | r
    · rw [hx] at h
      simp at h
    · rw [hx] at h
      simp at h
      rw [← h]

/-- C5: the economics step runs exactly when both the current sale price
and the acquisition cost are present.  With both present, the result
carries the estimated ROI and gross profit whatever the verdict, and a
LowROI skip reason appears exactly when the (rounded) ROI is below the
configured floor.  With either price absent, no LowROI reason is produced
and the estimated ROI, estimated profit, and maximum buy price are all
null. -/
theorem analyze_economics_iff_prices_present (cfg : Config) (wl : List String)
    (product : ProductData) :
    (∀ cp sp, product.current_price = some cp → product.source_price = some sp →
      (analyze cfg wl product).estimated_roi = some (calculate_profit cp sp 12).roi_percent
      ∧ (analyze cfg wl product).estimated_profit = some (calculate_profit cp sp 12).gross_profit
      ∧ (SkipReason.LOW_ROI ∈ skipReasonsOf cfg wl product
          ↔ (calculate_profit cp sp 12).roi_percent < cfg.minimum_percent))
  ∧ (product.current_price = none ∨ product.source_price = none →
      SkipReason.LOW_ROI ∉ skipReasonsOf cfg wl product
      ∧ (analyze cfg wl product).estimated_roi = none
      ∧ (analyze cfg wl product).estimated_profit = none
      ∧ (analyze cfg wl product).max_buy_price = none) := by
  constructor
  · intro cp sp hcp hsp
    refine ⟨?_, ?_, ?_, ?_⟩
    · show (_calculate_roi cfg product).roi = _
      unfold _calculate_roi
      rw [hcp, hsp]
    · show (_calculate_roi cfg product).profit = _
      unfold _calculate_roi
      rw [hcp, hsp]
    · intro hmem
      have hsr := low_roi_mem_skipReasons cfg wl product hmem
      unfold _calculate_roi at hsr
      rw [hcp, hsp] at hsr
      dsimp only at hsr
      split_ifs at hsr with hlt
      · exact hlt
    · intro hlt
      have hsr : (_calculate_roi cfg product).skip_reason = some SkipReason.LOW_ROI := by
        unfold _calculate_roi
        rw [hcp, hsp]
        dsimp only
        rw [if_pos hlt]
      unfold skipReasonsOf
      simp only [List.mem_append]
      right
      rw [hsr]
      simp
  · intro hnone
    have hres : _calculate_roi cfg product =
        { roi := none, profit := none, max_buy_price := none, skip_reason := none } := by
      unfold _calculate_roi
      rcases hcp : product.current_price with _ | c
      · rfl
      · rcases hsp : product.source_price with _ | s
        · rfl
        · exfalso
          rcases hnone with h | h <;> simp_all
    refine ⟨?_, ?_, ?_, ?_⟩
    · intro hmem
      have hsr := low_roi_mem_skipReasons cfg wl product hmem
      rw [hres] at hsr
      simp at hsr
    · show (_calculate_roi cfg product).roi = none
      rw [hres]
    · show (_calculate_roi cfg product).profit = none
      rw [hres]
    · show (_calculate_roi cfg product).max_buy_price = none
      rw [hres]

/-- Concrete product for the C5 witness: both prices absent. -/
def pNoPrices : ProductData := { asin := "B05", eligibility_status := "GOOD" }

/-- C5 witness: with no prices the economics step is skipped entirely. -/
theorem analyze_economics_iff_prices_present_witness :
    SkipReason.LOW_ROI ∉ skipReasonsOf defaultConfig publisher_watchlist pNoPrices
  ∧ (analyze defaultConfig publisher_watchlist pNoPrices).estimated_roi = none
  ∧ (analyze defaultConfig publisher_watchlist pNoPrices).max_buy_price = none := by
  have h := (analyze_economics_iff_prices_present defaultConfig publisher_watchlist
    pNoPrices).2 (Or.inl rfl)
  exact ⟨h.1, h.2.1, h.2.2.2⟩

end FAgent
